import Mathlib

/-!
Verification of `storage_tier.py` from the AWS-RFDK
All-In-AWS-Infrastructure-Basic python example.

The file defines three CDK stacks:
  * `StorageTier` — provisions a shared EFS file system and initializes the
    `database` field to `None`;
  * `StorageTierDocDB` — additionally declares a DocumentDB `DatabaseCluster`
    and assigns `self.database = DatabaseConnection.for_doc_db(...)`;
  * `StorageTierMongoDB` — additionally issues server/client X.509
    certificates, a PKCS#12 bundle, declares a `MongoDbInstance` restricted to
    the first availability zone of the VPC, runs a `MongoDbPostInstallSetup`
    granting two admin roles, and assigns
    `self.database = DatabaseConnection.for_mongo_db_instance(...)`.

We embed construction as pure functions from props to records describing the
declared resources.  Python attribute assignment to `self.database` is
additionally modelled as an explicit write trace (`databaseAssignments`), and
the only partial operation — indexing `availability_zones[0]` — makes the
MongoDB constructor return an `Option`.
-/

/-- RemovalPolicy from aws_cdk.core. -/
inductive RemovalPolicy where
  | DESTROY
  | RETAIN
  | SNAPSHOT
deriving DecidableEq, Repr

/-- Duration from aws_cdk.core, measured in days here (only `Duration.days`
is used by the source). -/
structure Duration where
  toDays : Nat
deriving DecidableEq, Repr

/-- `Duration.days(n)`. -/
def Duration.days (n : Nat) : Duration := ⟨n⟩

/-- aws_cdk.aws_ec2.InstanceType, opaque apart from its name. -/
structure InstanceType where
  name : String
deriving DecidableEq, Repr

/-- aws_cdk.aws_ec2.IVpc: the only attribute the source reads is
`availability_zones`. -/
structure IVpc where
  availability_zones : List String
deriving DecidableEq, Repr

/-- aws_cdk.aws_ec2.SubnetType (only PRIVATE is used). -/
inductive SubnetType where
  | PRIVATE
  | PUBLIC
deriving DecidableEq, Repr

/-- aws_cdk.aws_ec2.SubnetSelection as used by the source: a subnet type and
an optional availability-zone restriction. -/
structure SubnetSelection where
  subnet_type : SubnetType
  availability_zones : Option (List String) := none
deriving DecidableEq, Repr

/-- aws_cdk.aws_route53.IPrivateHostedZone: the source reads `zone_name`. -/
structure IPrivateHostedZone where
  zone_name : String
deriving DecidableEq, Repr

/-- aws_cdk.aws_efs.FileSystem as declared by `StorageTier.__init__`. -/
structure FileSystem where
  id : String
  vpc : IVpc
  removal_policy : RemovalPolicy
deriving DecidableEq, Repr

/-- aws_rfdk.MountableEfs wrapping the file system. -/
structure MountableEfs where
  filesystem : FileSystem
deriving DecidableEq, Repr

/-- aws_cdk.aws_docdb.Login (only the username is supplied). -/
structure Login where
  username : String
deriving DecidableEq, Repr

/-- aws_cdk.aws_docdb.BackupProps. -/
structure BackupProps where
  retention : Duration
deriving DecidableEq, Repr

/-- aws_cdk.aws_docdb.InstanceProps. -/
structure InstanceProps where
  vpc : IVpc
  vpc_subnets : SubnetSelection
  instance_type : InstanceType
deriving DecidableEq, Repr

/-- The generated credential secret of a DocumentDB cluster
(`doc_db.secret`); identified by the cluster that generated it. -/
structure SecretRef where
  cluster_id : String
deriving DecidableEq, Repr

/-- aws_cdk.aws_docdb.DatabaseCluster as declared by
`StorageTierDocDB.__init__`. -/
structure DatabaseCluster where
  id : String
  instance_props : InstanceProps
  instances : Nat
  master_user : Login
  engine_version : String
  backup : BackupProps
  removal_policy : RemovalPolicy
deriving DecidableEq, Repr

/-- `doc_db.secret`: the cluster's generated credential secret. -/
def DatabaseCluster.secret (c : DatabaseCluster) : SecretRef :=
  ⟨c.id⟩

/-- aws_rfdk.DistinguishedName. -/
structure DistinguishedName where
  cn : String
  o : Option String := none
  ou : Option String := none
deriving DecidableEq, Repr

/-- aws_rfdk.X509CertificatePem: a certificate construct carrying its
subject and the optional certificate that signs it (`signing_certificate`).
The root CA supplied in the props is itself a value of this type, hence the
recursion through `Option`. -/
inductive X509CertificatePem : Type where
  | mk (id : String) (subject : DistinguishedName)
       (signing_certificate : Option X509CertificatePem) : X509CertificatePem

/-- Construct id of a certificate. -/
def X509CertificatePem.id : X509CertificatePem → String
  | .mk i _ _ => i

/-- Subject of a certificate. -/
def X509CertificatePem.subject : X509CertificatePem → DistinguishedName
  | .mk _ s _ => s

/-- Signing certificate of a certificate (none for a self-signed root). -/
def X509CertificatePem.signing_certificate :
    X509CertificatePem → Option X509CertificatePem
  | .mk _ _ c => c

/-- aws_rfdk.X509CertificatePkcs12: the PKCS#12 bundle derived from a PEM
certificate (`source_certificate`). -/
structure X509CertificatePkcs12 where
  id : String
  source_certificate : X509CertificatePem

/-- The `.cert` attribute of an X509CertificatePem (the secret holding the
PEM-encoded certificate); identified by the certificate it belongs to. -/
structure CertAttr where
  ofPem : X509CertificatePem

/-- `client_cert.cert`. -/
def X509CertificatePem.cert (c : X509CertificatePem) : CertAttr :=
  ⟨c⟩

/-- aws_rfdk.MongoDbVersion (only COMMUNITY_3_6 is used). -/
inductive MongoDbVersion where
  | COMMUNITY_3_6
deriving DecidableEq, Repr

/-- aws_rfdk.MongoDbSsplLicenseAcceptance. -/
inductive MongoDbSsplLicenseAcceptance where
  | USER_ACCEPTS_SSPL
  | USER_REJECTS_SSPL
deriving DecidableEq, Repr

/-- aws_rfdk.MongoDbApplicationProps. -/
structure MongoDbApplicationProps where
  user_sspl_acceptance : MongoDbSsplLicenseAcceptance
  version : MongoDbVersion
  hostname : String
  dns_zone : IPrivateHostedZone
  server_certificate : X509CertificatePem

/-- aws_rfdk.MongoDbInstance as declared by `StorageTierMongoDB.__init__`. -/
structure MongoDbInstance where
  id : String
  vpc : IVpc
  vpc_subnets : SubnetSelection
  key_name : Option String
  instance_type : InstanceType
  mongo_db : MongoDbApplicationProps

/-- A role entry of the post-install role payload: the dict
`\x7b'role': r, 'db': d\x7d` before JSON serialization. -/
structure RoleEntry where
  role : String
  db : String
deriving DecidableEq, Repr

/-- Python `json.dumps` of one role dict: keys `role` and `db` in source
order, default separators. -/
def RoleEntry.dumps (r : RoleEntry) : String :=
  "\x7b\"role\": \"" ++ r.role ++ "\", \"db\": \"" ++ r.db ++ "\"\x7d"

/-- Python `json.dumps` of a list of role dicts with default separators. -/
def jsonDumpsRoles (rs : List RoleEntry) : String :=
  "[" ++ String.intercalate ", " (rs.map RoleEntry.dumps) ++ "]"

/-- aws_rfdk.MongoDbX509User: an X.509-authenticated user given by a
certificate and a JSON role string. -/
structure MongoDbX509User where
  certificate : CertAttr
  roles : String

/-- aws_rfdk.MongoDbUsers. -/
structure MongoDbUsers where
  x509_auth_users : Option (List MongoDbX509User) := none

/-- aws_rfdk.MongoDbPostInstallSetup as declared by
`StorageTierMongoDB.__init__`. -/
structure MongoDbPostInstallSetup where
  id : String
  vpc : IVpc
  vpc_subnets : SubnetSelection
  mongo_db : MongoDbInstance
  users : MongoDbUsers

/-- aws_rfdk.deadline.DatabaseConnection: an opaque handle with the two
factory methods the source uses. -/
inductive DatabaseConnection where
  | for_doc_db (database : DatabaseCluster) (login : Option SecretRef)
  | for_mongo_db_instance (database : MongoDbInstance)
      (client_certificate : X509CertificatePkcs12)

/-- Properties for StorageTier. -/
structure StorageTierProps where
  vpc : IVpc
deriving DecidableEq, Repr

/-- The state of a StorageTier stack after `StorageTier.__init__`. -/
structure StorageTier where
  file_system : MountableEfs
  database : Option DatabaseConnection

/-- `StorageTier.__init__`: declares the EFS file system (with removal
policy DESTROY) wrapped in a MountableEfs and sets `self.database = None`. -/
def StorageTier.construct (props : StorageTierProps) : StorageTier :=
  { file_system :=
      { filesystem :=
          { id := "EfsFileSystem"
            vpc := props.vpc
            removal_policy := RemovalPolicy.DESTROY } }
    database := none }

/-- The sequence of values assigned to `self.database` during
`StorageTier.__init__` (line 93 assigns `None`). -/
def StorageTier.databaseAssignments (_props : StorageTierProps) :
    List (Option DatabaseConnection) :=
  [none]

/-- Properties for StorageTierDocDB. -/
structure StorageTierDocDBProps where
  vpc : IVpc
  database_instance_type : InstanceType
deriving DecidableEq, Repr

/-- The state of a StorageTierDocDB stack after its `__init__`: the
inherited StorageTier state plus the declared DocumentDB cluster. -/
structure StorageTierDocDB where
  toStorageTier : StorageTier
  doc_db : DatabaseCluster

/-- The `DatabaseCluster` declared by `StorageTierDocDB.__init__`
(lines 119-144). -/
def StorageTierDocDB.docDbOf (props : StorageTierDocDBProps) :
    DatabaseCluster :=
  { id := "DocDBCluster"
    instance_props :=
      { vpc := props.vpc
        vpc_subnets := { subnet_type := SubnetType.PRIVATE }
        instance_type := props.database_instance_type }
    instances := 1
    master_user := { username := "adminuser" }
    engine_version := "3.6.0"
    backup := { retention := Duration.days 15 }
    removal_policy := RemovalPolicy.DESTROY }

/-- The connection assigned by `StorageTierDocDB.__init__` (lines 146-149):
`DatabaseConnection.for_doc_db(database=doc_db, login=doc_db.secret)`. -/
def StorageTierDocDB.connectionOf (props : StorageTierDocDBProps) :
    DatabaseConnection :=
  DatabaseConnection.for_doc_db (StorageTierDocDB.docDbOf props)
    (some (StorageTierDocDB.docDbOf props).secret)

/-- `StorageTierDocDB.__init__`: runs the base constructor, declares the
cluster, then assigns `self.database`. -/
def StorageTierDocDB.construct (props : StorageTierDocDBProps) :
    StorageTierDocDB :=
  let base := StorageTier.construct { vpc := props.vpc }
  { toStorageTier :=
      { base with database := some (StorageTierDocDB.connectionOf props) }
    doc_db := StorageTierDocDB.docDbOf props }

/-- The sequence of values assigned to `self.database` during
`StorageTierDocDB.__init__`: the base constructor's writes followed by the
single write of line 146. -/
def StorageTierDocDB.databaseAssignments (props : StorageTierDocDBProps) :
    List (Option DatabaseConnection) :=
  StorageTier.databaseAssignments { vpc := props.vpc }
    ++ [some (StorageTierDocDB.connectionOf props)]

/-- Properties for StorageTierMongoDB. -/
structure StorageTierMongoDBProps where
  vpc : IVpc
  database_instance_type : InstanceType
  root_ca : X509CertificatePem
  dns_zone : IPrivateHostedZone
  accept_sspl_license : MongoDbSsplLicenseAcceptance
  key_pair_name : Option String

/-- The server certificate declared by `StorageTierMongoDB.__init__`
(lines 184-193). -/
def StorageTierMongoDB.serverCertOf (props : StorageTierMongoDBProps) :
    X509CertificatePem :=
  X509CertificatePem.mk "MongoCert"
    { cn := "mongo." ++ props.dns_zone.zone_name
      o := some "RFDK-Sample"
      ou := some "MongoServer" }
    (some props.root_ca)

/-- The client certificate declared by `StorageTierMongoDB.__init__`
(lines 195-204). -/
def StorageTierMongoDB.clientCertOf (props : StorageTierMongoDBProps) :
    X509CertificatePem :=
  X509CertificatePem.mk "DeadlineMongoCert"
    { cn := "SampleUser"
      o := some "RFDK-Sample"
      ou := some "MongoClient" }
    (some props.root_ca)

/-- The PKCS#12 bundle declared by `StorageTierMongoDB.__init__`
(lines 205-209). -/
def StorageTierMongoDB.clientPkcs12Of (props : StorageTierMongoDBProps) :
    X509CertificatePkcs12 :=
  { id := "DeadlineMongoPkcs12"
    source_certificate := StorageTierMongoDB.clientCertOf props }

/-- The subnet selection built from the selected availability zone
(lines 213-216). -/
def StorageTierMongoDB.mongoVpcSubnetOf (az : String) : SubnetSelection :=
  { subnet_type := SubnetType.PRIVATE
    availability_zones := some [az] }

/-- The MongoDbInstance declared by `StorageTierMongoDB.__init__`
(lines 218-232), given the selected availability zone. -/
def StorageTierMongoDB.mongoDbOf (props : StorageTierMongoDBProps)
    (az : String) : MongoDbInstance :=
  { id := "MongoDb"
    vpc := props.vpc
    vpc_subnets := StorageTierMongoDB.mongoVpcSubnetOf az
    key_name := props.key_pair_name
    instance_type := props.database_instance_type
    mongo_db :=
      { user_sspl_acceptance := props.accept_sspl_license
        version := MongoDbVersion.COMMUNITY_3_6
        hostname := "mongo"
        dns_zone := props.dns_zone
        server_certificate := StorageTierMongoDB.serverCertOf props } }

/-- The two role dicts of the post-install payload (lines 244-253). -/
def StorageTierMongoDB.postInstallRoles : List RoleEntry :=
  [ { role := "readWriteAnyDatabase", db := "admin" },
    { role := "clusterMonitor", db := "admin" } ]

/-- The MongoDbPostInstallSetup declared by `StorageTierMongoDB.__init__`
(lines 234-257), given the selected availability zone. -/
def StorageTierMongoDB.postInstallOf (props : StorageTierMongoDBProps)
    (az : String) : MongoDbPostInstallSetup :=
  { id := "MongoDbPostInstall"
    vpc := props.vpc
    vpc_subnets := StorageTierMongoDB.mongoVpcSubnetOf az
    mongo_db := StorageTierMongoDB.mongoDbOf props az
    users :=
      { x509_auth_users :=
          some [ { certificate := (StorageTierMongoDB.clientCertOf props).cert
                   roles := jsonDumpsRoles StorageTierMongoDB.postInstallRoles } ] } }

/-- The connection assigned by `StorageTierMongoDB.__init__`
(lines 259-262):
`DatabaseConnection.for_mongo_db_instance(database=mongo_db,
client_certificate=client_pkcs12)`. -/
def StorageTierMongoDB.connectionOf (props : StorageTierMongoDBProps)
    (az : String) : DatabaseConnection :=
  DatabaseConnection.for_mongo_db_instance
    (StorageTierMongoDB.mongoDbOf props az)
    (StorageTierMongoDB.clientPkcs12Of props)

/-- The state of a StorageTierMongoDB stack after its `__init__`. -/
structure StorageTierMongoDB where
  toStorageTier : StorageTier
  server_cert : X509CertificatePem
  client_cert : X509CertificatePem
  client_pkcs12 : X509CertificatePkcs12
  mongo_db : MongoDbInstance
  post_install : MongoDbPostInstallSetup

/-- The stack state produced by `StorageTierMongoDB.__init__` when the
availability-zone selection yields `az`: the base constructor's state with
`database` overwritten by the connection of lines 259-262, together with the
resources declared along the way. -/
def StorageTierMongoDB.resultOf (props : StorageTierMongoDBProps)
    (az : String) : StorageTierMongoDB :=
  { toStorageTier :=
      { StorageTier.construct { vpc := props.vpc } with
        database := some (StorageTierMongoDB.connectionOf props az) }
    server_cert := StorageTierMongoDB.serverCertOf props
    client_cert := StorageTierMongoDB.clientCertOf props
    client_pkcs12 := StorageTierMongoDB.clientPkcs12Of props
    mongo_db := StorageTierMongoDB.mongoDbOf props az
    post_install := StorageTierMongoDB.postInstallOf props az }

/-- `StorageTierMongoDB.__init__`: runs the base constructor, declares the
certificates and the bundle, indexes `props.vpc.availability_zones[0]`
(failing — Python IndexError — when the list is empty, hence the `Option`),
declares the instance and the post-install step, then assigns
`self.database`. -/
def StorageTierMongoDB.construct (props : StorageTierMongoDBProps) :
    Option StorageTierMongoDB :=
  match props.vpc.availability_zones[0]? with
  | none => none
  | some availability_zone =>
    some (StorageTierMongoDB.resultOf props availability_zone)

/-- The sequence of values assigned to `self.database` during
`StorageTierMongoDB.__init__` (defined when construction succeeds): the base
constructor's writes followed by the single write of line 259. -/
def StorageTierMongoDB.databaseAssignments (props : StorageTierMongoDBProps) :
    Option (List (Option DatabaseConnection)) :=
  match props.vpc.availability_zones[0]? with
  | none => none
  | some availability_zone =>
    some (StorageTier.databaseAssignments { vpc := props.vpc }
      ++ [some (StorageTierMongoDB.connectionOf props availability_zone)])

/-! ### Sample concrete inputs -/

/-- A concrete VPC with two availability zones. -/
def sampleVpc : IVpc :=
  { availability_zones := ["us-west-2a", "us-west-2b"] }

/-- A concrete self-signed root certificate authority. -/
def sampleRootCa : X509CertificatePem :=
  X509CertificatePem.mk "RootCA" { cn := "SampleRootCA" } none

/-- Concrete properties for the MongoDB-backed variant. -/
def sampleMongoProps : StorageTierMongoDBProps :=
  { vpc := sampleVpc
    database_instance_type := { name := "r5.large" }
    root_ca := sampleRootCa
    dns_zone := { zone_name := "renderfarm.local" }
    accept_sspl_license := MongoDbSsplLicenseAcceptance.USER_ACCEPTS_SSPL
    key_pair_name := some "MyKeyPair" }

/-- Concrete properties for the DocumentDB-backed variant. -/
def sampleDocDBProps : StorageTierDocDBProps :=
  { vpc := sampleVpc
    database_instance_type := { name := "r5.large" } }

/-! ### Inversion lemmas for the MongoDB constructor -/

/-- When the VPC reports no availability zone, construction fails. -/
theorem StorageTierMongoDB.construct_nil (p : StorageTierMongoDBProps)
    (h : p.vpc.availability_zones = []) :
    StorageTierMongoDB.construct p = none := by
  unfold StorageTierMongoDB.construct
  rw [h]
  rfl

/-- When the VPC reports at least one availability zone, construction
succeeds with the head zone selected. -/
theorem StorageTierMongoDB.construct_cons (p : StorageTierMongoDBProps)
    (z : String) (zs : List String) (h : p.vpc.availability_zones = z :: zs) :
    StorageTierMongoDB.construct p
      = some (StorageTierMongoDB.resultOf p z) := by
  unfold StorageTierMongoDB.construct
  rw [h]
  simp

/-- Any successful construction is the result for the head zone of the
VPC's availability-zone list. -/
theorem StorageTierMongoDB.construct_inv (p : StorageTierMongoDBProps)
    (st : StorageTierMongoDB) (h : StorageTierMongoDB.construct p = some st) :
    ∃ z zs, p.vpc.availability_zones = z :: zs
      ∧ st = StorageTierMongoDB.resultOf p z := by
  cases hz : p.vpc.availability_zones with
  | nil =>
      rw [StorageTierMongoDB.construct_nil p hz] at h
      exact Option.noConfusion h
  | cons z zs =>
      rw [StorageTierMongoDB.construct_cons p z zs hz] at h
      injection h with h2
      exact ⟨z, zs, rfl, h2.symm⟩

/-- The stack state of the sample MongoDB construction (head zone of the
sample VPC). -/
def sampleMongoSt : StorageTierMongoDB :=
  StorageTierMongoDB.resultOf sampleMongoProps "us-west-2a"

/-! ### Claims -/

/-- Claim C1: the database-connection field is `none` after base
`StorageTier` construction and remains `none` when only the base is
constructed; each variant constructor performs exactly one further
assignment during construction (the write trace is the base trace `[none]`
followed by a single `some` write) and the field is never reassigned
afterwards, its final value being that single write. -/
theorem database_field_assigned_exactly_once :
    (∀ p : StorageTierProps,
        StorageTier.databaseAssignments p = [none]
        ∧ (StorageTier.construct p).database = none)
    ∧ (∀ p : StorageTierDocDBProps,
        StorageTierDocDB.databaseAssignments p
          = [none, some (StorageTierDocDB.connectionOf p)]
        ∧ ((StorageTierDocDB.databaseAssignments p).filter
            Option.isSome).length = 1
        ∧ (StorageTierDocDB.construct p).toStorageTier.database
          = some (StorageTierDocDB.connectionOf p))
    ∧ (∀ (p : StorageTierMongoDBProps) (z : String) (zs : List String),
        p.vpc.availability_zones = z :: zs →
        StorageTierMongoDB.databaseAssignments p
          = some [none, some (StorageTierMongoDB.connectionOf p z)]
        ∧ ((StorageTierMongoDB.databaseAssignments p).map
            (fun writes => (writes.filter Option.isSome).length))
          = some 1
        ∧ (StorageTierMongoDB.construct p).map
            (fun st => st.toStorageTier.database)
          = some (some (StorageTierMongoDB.connectionOf p z))) := by
  refine ⟨fun p => ⟨rfl, rfl⟩, fun p => ⟨rfl, rfl, rfl⟩, fun p z zs h => ?_⟩
  have hw : StorageTierMongoDB.databaseAssignments p
      = some [none, some (StorageTierMongoDB.connectionOf p z)] := by
    unfold StorageTierMongoDB.databaseAssignments
    rw [h]
    simp
    rfl
  refine ⟨hw, ?_, ?_⟩
  · rw [hw]
    rfl
  · rw [StorageTierMongoDB.construct_cons p z zs h]
    rfl

/-- Witness for the single-assignment theorem at the sample MongoDB props:
the write trace is the base `none` followed by one `some` write. -/
theorem database_field_assigned_exactly_once_witness :
    StorageTierMongoDB.databaseAssignments sampleMongoProps
      = some [none,
          some (StorageTierMongoDB.connectionOf sampleMongoProps "us-west-2a")] :=
  (database_field_assigned_exactly_once.2.2 sampleMongoProps
    "us-west-2a" ["us-west-2b"] rfl).1

/-- Claim C2: every StorageTierDocDB's database connection wraps the
declared DatabaseCluster, and that cluster is declared with exactly 1
instance and a 15-day backup retention. -/
theorem docdb_cluster_one_instance_fifteen_day_backup
    (p : StorageTierDocDBProps) :
    (StorageTierDocDB.construct p).toStorageTier.database
      = some (DatabaseConnection.for_doc_db
          (StorageTierDocDB.construct p).doc_db
          (some (StorageTierDocDB.construct p).doc_db.secret))
    ∧ (StorageTierDocDB.construct p).doc_db.instances = 1
    ∧ (StorageTierDocDB.construct p).doc_db.backup.retention
      = Duration.days 15 :=
  ⟨rfl, rfl, rfl⟩

/-- Claim C3: in every successfully constructed StorageTierMongoDB the
post-install step has exactly one X.509 user — the client certificate's —
whose role payload is the JSON serialization of exactly the two role
entries readWriteAnyDatabase/admin and clusterMonitor/admin, and that
serialization is the expected two-element JSON list. -/
theorem mongodb_postinstall_exactly_two_roles
    (p : StorageTierMongoDBProps) (st : StorageTierMongoDB)
    (h : StorageTierMongoDB.construct p = some st) :
    st.post_install.users.x509_auth_users
      = some [ { certificate := st.client_cert.cert
                 roles := jsonDumpsRoles
                   [ { role := "readWriteAnyDatabase", db := "admin" },
                     { role := "clusterMonitor", db := "admin" } ] } ]
    ∧ jsonDumpsRoles
        [ { role := "readWriteAnyDatabase", db := "admin" },
          { role := "clusterMonitor", db := "admin" } ]
      = "[\x7b\"role\": \"readWriteAnyDatabase\", \"db\": \"admin\"\x7d, \x7b\"role\": \"clusterMonitor\", \"db\": \"admin\"\x7d]" := by
  obtain ⟨z, zs, hz, hst⟩ := StorageTierMongoDB.construct_inv p st h
  subst hst
  exact ⟨rfl, rfl⟩

/-- Witness for the post-install role theorem at the sample props. -/
theorem mongodb_postinstall_exactly_two_roles_witness :
    sampleMongoSt.post_install.users.x509_auth_users
      = some [ { certificate := sampleMongoSt.client_cert.cert
                 roles := jsonDumpsRoles
                   [ { role := "readWriteAnyDatabase", db := "admin" },
                     { role := "clusterMonitor", db := "admin" } ] } ] :=
  (mongodb_postinstall_exactly_two_roles sampleMongoProps sampleMongoSt rfl).1

/-- Claim C4: in every successfully constructed StorageTierMongoDB, both
the server certificate and the client certificate are signed by the root
certificate authority supplied in the props, and therefore so is the source
certificate of the PKCS#12 bundle used for the connection. -/
theorem mongodb_certs_signed_by_supplied_root_ca
    (p : StorageTierMongoDBProps) (st : StorageTierMongoDB)
    (h : StorageTierMongoDB.construct p = some st) :
    st.server_cert.signing_certificate = some p.root_ca
    ∧ st.client_cert.signing_certificate = some p.root_ca
    ∧ st.client_pkcs12.source_certificate.signing_certificate
      = some p.root_ca := by
  obtain ⟨z, zs, hz, hst⟩ := StorageTierMongoDB.construct_inv p st h
  subst hst
  exact ⟨rfl, rfl, rfl⟩

/-- Witness for the signing-certificate theorem at the sample props. -/
theorem mongodb_certs_signed_by_supplied_root_ca_witness :
    sampleMongoSt.server_cert.signing_certificate = some sampleRootCa
    ∧ sampleMongoSt.client_cert.signing_certificate = some sampleRootCa :=
  ⟨(mongodb_certs_signed_by_supplied_root_ca sampleMongoProps
      sampleMongoSt rfl).1,
   (mongodb_certs_signed_by_supplied_root_ca sampleMongoProps
      sampleMongoSt rfl).2.1⟩

/-- Claim C5: every stateful resource declared by this code that carries a
removal policy carries RemovalPolicy.DESTROY: the EFS file system declared
by the base constructor (hence by every variant) and the DocumentDB cluster
declared by StorageTierDocDB. -/
theorem stateful_resources_removal_policy_destroy :
    (∀ p : StorageTierProps,
        (StorageTier.construct p).file_system.filesystem.removal_policy
          = RemovalPolicy.DESTROY)
    ∧ (∀ p : StorageTierDocDBProps,
        (StorageTierDocDB.construct
            p).toStorageTier.file_system.filesystem.removal_policy
          = RemovalPolicy.DESTROY
        ∧ (StorageTierDocDB.construct p).doc_db.removal_policy
          = RemovalPolicy.DESTROY)
    ∧ (∀ (p : StorageTierMongoDBProps) (st : StorageTierMongoDB),
        StorageTierMongoDB.construct p = some st →
        st.toStorageTier.file_system.filesystem.removal_policy
          = RemovalPolicy.DESTROY) := by
  refine ⟨fun p => rfl, fun p => ⟨rfl, rfl⟩, fun p st h => ?_⟩
  obtain ⟨z, zs, hz, hst⟩ := StorageTierMongoDB.construct_inv p st h
  subst hst
  rfl

/-- Witness for the removal-policy theorem at the sample props. -/
theorem stateful_resources_removal_policy_destroy_witness :
    sampleMongoSt.toStorageTier.file_system.filesystem.removal_policy
      = RemovalPolicy.DESTROY :=
  stateful_resources_removal_policy_destroy.2.2 sampleMongoProps
    sampleMongoSt rfl

/-- Claim C6: when the VPC reports a non-empty availability-zone list, the
constructed StorageTierMongoDB places both the MongoDB instance and the
post-install step in a subnet selection restricted to exactly the first
availability zone of that list. -/
theorem mongodb_single_availability_zone_selected
    (p : StorageTierMongoDBProps) (z : String) (zs : List String)
    (st : StorageTierMongoDB)
    (hz : p.vpc.availability_zones = z :: zs)
    (h : StorageTierMongoDB.construct p = some st) :
    st.mongo_db.vpc_subnets
      = { subnet_type := SubnetType.PRIVATE
          availability_zones := some [z] }
    ∧ st.post_install.vpc_subnets = st.mongo_db.vpc_subnets := by
  rw [StorageTierMongoDB.construct_cons p z zs hz] at h
  injection h with h2
  subst h2
  exact ⟨rfl, rfl⟩

/-- Witness for the availability-zone theorem at the sample props, whose
VPC's first zone is "us-west-2a". -/
theorem mongodb_single_availability_zone_selected_witness :
    sampleMongoSt.mongo_db.vpc_subnets
      = { subnet_type := SubnetType.PRIVATE
          availability_zones := some ["us-west-2a"] }
    ∧ sampleMongoSt.post_install.vpc_subnets
      = sampleMongoSt.mongo_db.vpc_subnets :=
  mongodb_single_availability_zone_selected sampleMongoProps
    "us-west-2a" ["us-west-2b"] sampleMongoSt rfl rfl

/-- Claim C7: every successfully constructed StorageTierMongoDB's database
connection wraps the declared MongoDB instance together with the PKCS#12
bundle, and that bundle's source certificate is the client certificate (the
connection does not carry the raw PEM client certificate). -/
theorem mongodb_connection_wraps_instance_and_pkcs12
    (p : StorageTierMongoDBProps) (st : StorageTierMongoDB)
    (h : StorageTierMongoDB.construct p = some st) :
    st.toStorageTier.database
      = some (DatabaseConnection.for_mongo_db_instance st.mongo_db
          st.client_pkcs12)
    ∧ st.client_pkcs12.source_certificate = st.client_cert := by
  obtain ⟨z, zs, hz, hst⟩ := StorageTierMongoDB.construct_inv p st h
  subst hst
  exact ⟨rfl, rfl⟩

/-- Witness for the connection-wrapping theorem at the sample props. -/
theorem mongodb_connection_wraps_instance_and_pkcs12_witness :
    sampleMongoSt.toStorageTier.database
      = some (DatabaseConnection.for_mongo_db_instance sampleMongoSt.mongo_db
          sampleMongoSt.client_pkcs12) :=
  (mongodb_connection_wraps_instance_and_pkcs12 sampleMongoProps
    sampleMongoSt rfl).1

/-- Claim C8: every StorageTierDocDB declares its cluster with the
administrative login username "adminuser" and engine version "3.6.0", and
its database connection wraps that cluster together with the cluster's
generated credential secret. -/
theorem docdb_admin_login_engine_and_secret (p : StorageTierDocDBProps) :
    (StorageTierDocDB.construct p).doc_db.master_user
      = { username := "adminuser" }
    ∧ (StorageTierDocDB.construct p).doc_db.engine_version = "3.6.0"
    ∧ (StorageTierDocDB.construct p).toStorageTier.database
      = some (DatabaseConnection.for_doc_db
          (StorageTierDocDB.construct p).doc_db
          (some (StorageTierDocDB.construct p).doc_db.secret)) :=
  ⟨rfl, rfl, rfl⟩

/-- Claim C9: StorageTierMongoDB construction is partial at the public
interface: it fails exactly when the VPC reports an empty
availability-zone list (the index 0 is out of range), and succeeds for
every VPC reporting at least one zone. -/
theorem mongodb_construct_fails_iff_no_availability_zone
    (p : StorageTierMongoDBProps) :
    (StorageTierMongoDB.construct p = none
      ↔ p.vpc.availability_zones = [])
    ∧ ((StorageTierMongoDB.construct p).isSome = true
      ↔ p.vpc.availability_zones ≠ []) := by
  cases hz : p.vpc.availability_zones with
  | nil => simp [StorageTierMongoDB.construct_nil p hz]
  | cons z zs => simp [StorageTierMongoDB.construct_cons p z zs hz]

/-- Claim C10: in every successfully constructed StorageTierMongoDB, the
server certificate's common name is "mongo." followed by the supplied DNS
zone's name, which agrees with the hostname "mongo" under which the MongoDB
instance is registered in that same DNS zone. -/
theorem mongodb_cert_cn_matches_instance_dns
    (p : StorageTierMongoDBProps) (st : StorageTierMongoDB)
    (h : StorageTierMongoDB.construct p = some st) :
    st.server_cert.subject.cn = "mongo." ++ p.dns_zone.zone_name
    ∧ st.mongo_db.mongo_db.hostname = "mongo"
    ∧ st.mongo_db.mongo_db.dns_zone = p.dns_zone
    ∧ st.mongo_db.mongo_db.server_certificate = st.server_cert
    ∧ st.server_cert.subject.cn
      = st.mongo_db.mongo_db.hostname ++ "."
        ++ st.mongo_db.mongo_db.dns_zone.zone_name := by
  obtain ⟨z, zs, hz, hst⟩ := StorageTierMongoDB.construct_inv p st h
  subst hst
  refine ⟨rfl, rfl, rfl, rfl, ?_⟩
  show "mongo." ++ p.dns_zone.zone_name
      = "mongo" ++ "." ++ p.dns_zone.zone_name
  rfl

/-- Witness for the certificate/DNS-name theorem at the sample props. -/
theorem mongodb_cert_cn_matches_instance_dns_witness :
    sampleMongoSt.server_cert.subject.cn
      = "mongo." ++ sampleMongoProps.dns_zone.zone_name :=
  (mongodb_cert_cn_matches_instance_dns sampleMongoProps
    sampleMongoSt rfl).1
